import Mathlib

/-!
# A shallow embedding of `server.py` (relay hub with request/response correlation)

This file models the correlation/broadcast core of the aiohttp server:

* `pending_captures` (the Correlation Table): an association list from
  correlation-identifier strings to entries `{future, return_base64}`;
  futures live in a separate store modelled as a total function
  `Nat → FutState` (a future object survives removal of its table entry,
  exactly as in the Python code where the handler keeps a local reference).
* `websocket_handler`'s image-message branch (`handleImage` below): id
  extraction with the `captureId or requestId or captureTimestamp` fallback
  chain, "data:"-prefix stripping, whitespace strip, base64 padding
  normalization, decoding, the `MAX_CAPTURE_BYTES` size check, file save,
  and resolution of the pending future (`_resolve_entry`).
* `capture_request_handler`: the empty-registry rejection, registration of
  the pending entry, the broadcast-with-pruning loop, and the timeout path
  of `asyncio.wait_for` (`captureTimeoutStep`).
* `broadcast_handler`'s send loop with its `sent` counter and pruning of
  failed peers.
* `score_handler`'s POST path (validation, per-key `int()` coercion,
  broadcast of `score_update`).

Concurrency is modelled as in asyncio's single-threaded cooperative model:
each code section between `await` points is an atomic event (`HubEvent`),
and interleavings are lists of events (`runEvents`).
-/

/-- Result value placed into a pending future by `_resolve_entry`
(`server.py` lines 120-135): either the base64 payload annotated with its
size, or the saved file path annotated with its size. The Python dict
`{"image_base64"|"filename", "size_kb", "requestId"}` is modelled with the
size kept in bytes (the code computes `size_kb = len(binary)/1024.0`). -/
inductive CaptureResult
  | rawPayload (image_base64 : String) (sizeBytes : Nat) (requestId : String)
  | fileRef (filename : String) (sizeBytes : Nat) (requestId : String)
deriving DecidableEq

/-- State of an `asyncio.Future`: unset, completed via `set_result`, or
cancelled (the state `asyncio.wait_for` leaves the future in on timeout). -/
inductive FutState
  | pending
  | resolved (r : CaptureResult)
  | cancelled
deriving DecidableEq

/-- One value of the `pending_captures` dict
(`{"future": fut, "return_base64": bool}`, `server.py` line 225); the
future is referenced by its identity in the future store. -/
structure Entry where
  futId : Nat
  return_base64 : Bool
deriving DecidableEq

/-- The hub's mutable state: the `pending_captures` dict (association list),
the store of future objects, and the files saved to the `captures/` dir. -/
structure HubState where
  pending : List (String × Entry)
  futs : Nat → FutState
  files : List String

/-- Association-list lookup, the read of a Python dict access. -/
def plookup {β : Type} (k : String) : List (String × β) → Option β
  | [] => none
  | (a, v) :: t => if a = k then some v else plookup k t

/-- Removal of a key, the effect of `dict.pop(k, None)` on the mapping. -/
def eraseKey : List (String × Entry) → String → List (String × Entry)
  | [], _ => []
  | (a, v) :: t, k => if a = k then eraseKey t k else (a, v) :: eraseKey t k

/-- Python dict assignment `d[k] = v`: any previous binding of `k` is
replaced. -/
def dinsert (m : List (String × Entry)) (k : String) (v : Entry) : List (String × Entry) :=
  (k, v) :: eraseKey m k

/-- Point update of the future store. -/
def futSet (futs : Nat → FutState) (fid : Nat) (v : FutState) : Nat → FutState :=
  fun i => if i = fid then v else futs i

/-- Python truthiness-based `a or b` on optional strings: `None` and `""`
are falsy. -/
def pyOrS : Option String → Option String → Option String
  | some s, y => if s = "" then y else some s
  | none, y => y

/-- `MAX_CAPTURE_BYTES = 10 * 1024 * 1024` (`server.py` line 27). -/
def MAX_CAPTURE_BYTES : Nat := 10 * 1024 * 1024

/-- An inbound websocket JSON message, restricted to the fields the
image-message branch of `websocket_handler` reads. Absent fields are
`none`; all values are modelled as strings. -/
structure InboundMsg where
  type : Option String
  captureId : Option String
  requestId : Option String
  captureTimestamp : Option String
  imageData : Option String
  image_base64 : Option String
  image_base64_payload : Option String
  image : Option String
  format : Option String
  mime_type : Option String
  imageFormat : Option String
deriving DecidableEq

/-- `capture_id = data.get("captureId") or data.get("requestId") or
data.get("captureTimestamp")` (`server.py` line 63). -/
def extractCaptureId (msg : InboundMsg) : Option String :=
  pyOrS msg.captureId (pyOrS msg.requestId msg.captureTimestamp)

/-- `image_field = data.get("imageData") or data.get("image_base64") or
data.get("image_base64_payload") or data.get("image")` (line 64). -/
def imageField (msg : InboundMsg) : Option String :=
  pyOrS msg.imageData (pyOrS msg.image_base64 (pyOrS msg.image_base64_payload msg.image))

/-- `fmt = (data.get("format") or data.get("mime_type") or
data.get("imageFormat") or "jpeg")` before lowercasing (line 99). -/
def fmtField (msg : InboundMsg) : String :=
  (pyOrS msg.format (pyOrS (pyOrS msg.mime_type msg.imageFormat) (some "jpeg"))).getD "jpeg"

/-- Boolean prefix test on character lists (`str.startswith`). -/
def listStartsWith : List Char → List Char → Bool
  | [], _ => true
  | _ :: _, [] => false
  | a :: p1, b :: l1 => if a = b then listStartsWith p1 l1 else false

/-- Boolean membership test on character lists. -/
def charMem (c : Char) : List Char → Bool
  | [] => false
  | d :: t => if d = c then true else charMem c t

/-- Everything after the first comma (`image_field[comma+1:]` with
`comma = image_field.find(',')`). -/
def dropThroughComma : List Char → List Char
  | [] => []
  | c :: t => if c = ',' then t else dropThroughComma t

/-- The "data:"-URI prefix stripping of `server.py` lines 70-75: when the
string starts with `data:` and contains a comma, keep only the part after
the first comma; otherwise keep it whole. -/
def stripDataUri (l : List Char) : List Char :=
  if listStartsWith ("data:".toList) l then
    if charMem ',' l then dropThroughComma l else l
  else l

/-- Python `str.strip()` whitespace set (ASCII part). -/
def isSpaceChar (c : Char) : Bool :=
  c = ' ' || c = '\t' || c = '\n' || c = '\r' || c = '\x0b' || c = '\x0c'

/-- Python `str.strip()`: drop whitespace from both ends. -/
def stripWs (l : List Char) : List Char :=
  ((l.dropWhile isSpaceChar).reverse.dropWhile isSpaceChar).reverse

/-- Padding normalization of `server.py` lines 82-84: pad with `'='` to a
multiple of 4. -/
def padB64L (l : List Char) : List Char :=
  if l.length % 4 = 0 then l else l ++ List.replicate (4 - l.length % 4) '='

/-- The full normalization applied to a string payload before decoding
(lines 70-84): data-URI strip, whitespace strip, `'='` padding. -/
def normalizePayload (s : String) : String :=
  (padB64L (stripWs (stripDataUri s.toList))).asString

/-- Value of a character in the standard base64 alphabet. -/
def b64Val (c : Char) : Option Nat :=
  if 65 ≤ c.toNat ∧ c.toNat ≤ 90 then some (c.toNat - 65)
  else if 97 ≤ c.toNat ∧ c.toNat ≤ 122 then some (c.toNat - 71)
  else if 48 ≤ c.toNat ∧ c.toNat ≤ 57 then some (c.toNat + 4)
  else if c = '+' then some 62
  else if c = '/' then some 63
  else none

/-- Bytes emitted for a quad that padding terminates after 2 or 3 data
characters: 2 data characters carry 12 accumulated bits and yield their
top byte (`leftchar >> 4`); 3 carry 18 bits and yield the top two bytes
(`leftchar >> 10`, `leftchar >> 2`). Written with division for shifts. -/
def b64EmitPartial (quadPos leftchar : Nat) : List Nat :=
  if quadPos = 2 then [leftchar / 16 % 256]
  else if quadPos = 3 then [leftchar / 1024 % 256, leftchar / 4 % 256]
  else []

/-- The non-strict decoding loop of `binascii.a2b_base64`, which is what
`base64.b64decode` runs in its default `validate=False` mode
(`server.py` line 88). State: `quadPos` (data characters accumulated in
the current quad, 0-3), `leftchar` (their accumulated bits), `pads`
(consecutive padding count, reset by every data character). Characters
outside the alphabet are discarded, not errors; a `'='` seen with 2 or 3
data characters accumulated (its second occurrence in the 2-character
case) ends decoding, emitting the partial bytes and ignoring all
remaining input; every completed quad of 4 data characters emits 3
bytes; input ending with 1, 2 or 3 data characters not terminated by
padding is a `binascii.Error`, i.e. `none`. So `"!!!"` decodes to `[]`
and `"x==="` fails, exactly as in Python. -/
def b64DecodeAux : List Char → Nat → Nat → Nat → Option (List Nat)
  | [], quadPos, _, _ => if quadPos = 0 then some [] else none
  | c :: rest, quadPos, leftchar, pads =>
    if c = '=' then
      if 2 ≤ quadPos ∧ 4 ≤ quadPos + (pads + 1) then
        some (b64EmitPartial quadPos leftchar)
      else
        b64DecodeAux rest quadPos leftchar (if 2 ≤ quadPos then pads + 1 else pads)
    else
      match b64Val c with
      | none => b64DecodeAux rest quadPos leftchar pads
      | some v =>
        if quadPos = 3 then
          match b64DecodeAux rest 0 0 0 with
          | some bs =>
            some ((leftchar * 64 + v) / 65536 % 256 ::
                  (leftchar * 64 + v) / 256 % 256 ::
                  (leftchar * 64 + v) % 256 :: bs)
          | none => none
        else b64DecodeAux rest (quadPos + 1) (leftchar * 64 + v) 0

/-- `base64.b64decode` (default, non-strict mode) on a string payload. -/
def b64decode (s : String) : Option (List Nat) :=
  b64DecodeAux s.toList 0 0 0

/-- `.replace("/", "_").replace(" ", "_")` applied to the id (line 104). -/
def sanitizeId (s : String) : String :=
  (s.toList.map (fun c => if c = '/' ∨ c = ' ' then '_' else c)).asString

/-- `ext = "jpg" if "jpeg" in fmt or "jpg" in fmt else ("png" if "png" in
fmt else "bin")` (line 100); `containsSub n h` is Python `n in h`. -/
def containsSub (needle : List Char) : List Char → Bool
  | [] => needle.isEmpty
  | c :: t => listStartsWith needle (c :: t) || containsSub needle t

def lowerStr (s : String) : String :=
  (s.toList.map Char.toLower).asString

def extOf (fmt : String) : String :=
  if containsSub ("jpeg".toList) fmt.toList || containsSub ("jpg".toList) fmt.toList then "jpg"
  else if containsSub ("png".toList) fmt.toList then "png"
  else "bin"

/-- Outcome of the image-message branch of `websocket_handler`, mirroring
its `continue`/log paths; none of these raises an error to any component. -/
inductive RouterOutcome
  | ignored
  | noImageField
  | badDecode
  | tooLarge
  | resolvedOk
  | unmatched
deriving DecidableEq

/-- `_resolve_entry(entry, key_value)` (`server.py` lines 120-135): if the
entry exists and its future is not yet done, complete the future with the
base64 payload (when `return_base64`) or the saved file path, and report
`True`; otherwise report `False` and change nothing. -/
def resolveEntry (futs : Nat → FutState) (entry : Option Entry) (keyValue : String)
    (b64p : String) (nbytes : Nat) (fpath : String) : (Nat → FutState) × Bool :=
  match entry with
  | none => (futs, false)
  | some e =>
    match futs e.futId with
    | FutState.pending =>
      (futSet futs e.futId
        (FutState.resolved
          (if e.return_base64 then CaptureResult.rawPayload b64p nbytes keyValue
           else CaptureResult.fileRef fpath nbytes keyValue)), true)
    | _ => (futs, false)

/-- Resolution section of `websocket_handler` (lines 137-149): pop the
primary key and try to resolve it; if that did not resolve, pop the
`requestId` alias and try that. Both pops happen via `dict.pop`. -/
def tryResolveKey (s : HubState) (k : Option String)
    (b64p : String) (nbytes : Nat) (fpath : String) : HubState × Bool :=
  match k with
  | some c =>
    let r := resolveEntry s.futs (plookup c s.pending) c b64p nbytes fpath
    ({ s with pending := eraseKey s.pending c, futs := r.1 }, r.2)
  | none => (s, false)

def routeReply (s : HubState) (cid : Option String) (altReq : Option String)
    (b64p : String) (nbytes : Nat) (fpath : String) : HubState × Bool :=
  if (tryResolveKey s cid b64p nbytes fpath).2 then tryResolveKey s cid b64p nbytes fpath
  else tryResolveKey (tryResolveKey s cid b64p nbytes fpath).1 altReq b64p nbytes fpath

/-- `fpath = os.path.join(CAPTURE_DIR, f"capture_{safe_id}_{ts}.{ext}")`
(`server.py` lines 98-106), with `safe_id` falling back to `noid_{ts}` for
a falsy id. -/
def captureFilePath (msg : InboundMsg) (ts : Nat) : String :=
  "captures/capture_" ++
    (match extractCaptureId msg with
     | some c => if c = "" then "noid_" ++ toString ts else sanitizeId c
     | none => "noid_" ++ toString ts) ++
    "_" ++ toString ts ++ "." ++ extOf (lowerStr (fmtField msg))

/-- Tag the routing result with the `resolved` flag's log outcome
(`server.py` lines 117, 151-152). -/
def withOutcome (p : HubState × Bool) : HubState × RouterOutcome :=
  (p.1, if p.2 then RouterOutcome.resolvedOk else RouterOutcome.unmatched)

/-- The image-message branch of `websocket_handler` (`server.py` lines
61-152), parameterized by the size limit `mb` (the server passes
`MAX_CAPTURE_BYTES`) and the millisecond timestamp `ts`. The file save is
modelled as always succeeding (its failure branch only logs and drops). -/
def handleImage (mb : Nat) (s : HubState) (msg : InboundMsg) (ts : Nat) :
    HubState × RouterOutcome :=
  if msg.type = some "image_capture" ∨ msg.type = some "frame_image" then
    match imageField msg with
    | none => (s, RouterOutcome.noImageField)
    | some ifld =>
      if ifld = "" then (s, RouterOutcome.noImageField)
      else
        match b64decode (normalizePayload ifld) with
        | none => (s, RouterOutcome.badDecode)
        | some binary =>
          if binary.length > mb then (s, RouterOutcome.tooLarge)
          else
            withOutcome
              (routeReply { s with files := captureFilePath msg ts :: s.files }
                (extractCaptureId msg) msg.requestId (normalizePayload ifld)
                binary.length (captureFilePath msg ts))
  else (s, RouterOutcome.ignored)

/-- The websocket handler as configured in the server: size limit
`MAX_CAPTURE_BYTES`. -/
def websocketHandleImage (s : HubState) (msg : InboundMsg) (ts : Nat) :
    HubState × RouterOutcome :=
  handleImage MAX_CAPTURE_BYTES s msg ts

/-- HTTP responses of `capture_request_handler`, one per return site:
success (200), `no_connected_clients` (503), `timeout_waiting_for_capture`
(504), `missing_pending_entry` (500). -/
inductive CaptureResponse
  | ok (r : CaptureResult)
  | timeout (requestId : String)
  | noClients
  | internalMissing
deriving DecidableEq

/-- A connected websocket client; `sendOk` says whether `ws.send_str`
succeeds for it during the broadcast under consideration. -/
structure Peer where
  pid : Nat
  sendOk : Bool
deriving DecidableEq

/-- Boolean peer membership. -/
def peerMem (p : Peer) : List Peer → Bool
  | [] => false
  | q :: t => if q = p then true else peerMem p t

/-- The `bad` list collected while iterating a snapshot of
`connected_clients` (`server.py` lines 229-235). -/
def captureBroadcastBad (clients : List Peer) : List Peer :=
  clients.foldl (fun acc ws => if ws.sendOk then acc else acc ++ [ws]) []

/-- Batch removal after the iteration: `connected_clients.discard(b)` for
each collected `b` (lines 236-241); closing failures are swallowed. -/
def removeBad (clients bad : List Peer) : List Peer :=
  clients.filter (fun p => !(peerMem p bad))

/-- `capture_request_handler` (`server.py` lines 176-241) up to the await:
reject with 503 when `connected_clients` is empty (before any registration
or broadcast); otherwise register the pending entry
`{"future": fut, "return_base64": rb}` under `reqKey`, broadcast the
capture request, and prune clients whose send failed. Returns the new
client set, the new hub state, and `some` response only on rejection. -/
def capture_request_handler_setup (clients : List Peer) (s : HubState)
    (reqKey : String) (fid : Nat) (rb : Bool) :
    List Peer × HubState × Option CaptureResponse :=
  if clients = [] then (clients, s, some CaptureResponse.noClients)
  else
    let s1 : HubState :=
      { s with pending := dinsert s.pending reqKey ⟨fid, rb⟩,
               futs := futSet s.futs fid FutState.pending }
    (removeBad clients (captureBroadcastBad clients), s1, none)

/-- The `asyncio.TimeoutError` branch of `capture_request_handler` (lines
255-260): the future is left cancelled by `asyncio.wait_for`, the entry is
popped from `pending_captures`, and the 504 timeout response is returned.
`asyncio.wait_for` raises `TimeoutError` only while the future is still
pending, so this step is only ever taken from a pending future. -/
def captureTimeoutStep (s : HubState) (reqKey : String) (fid : Nat) :
    HubState × CaptureResponse :=
  ({ s with futs := futSet s.futs fid FutState.cancelled,
            pending := eraseKey s.pending reqKey },
   CaptureResponse.timeout reqKey)

/-- Atomic events of the asyncio event loop relevant to one correlation:
arrival of an inbound websocket message (one iteration of the `async for`
loop), or expiry of a `wait_for` deadline for the waiter `(reqKey, fid)`. -/
inductive HubEvent
  | reply (msg : InboundMsg) (ts : Nat)
  | timeout (reqKey : String) (fid : Nat)
deriving DecidableEq

/-- One event: a reply runs the websocket handler; a timeout runs the
timeout branch, which in asyncio fires only if the future is not yet done
(otherwise `wait_for` has already returned the result and the deadline is
a no-op). -/
def applyEvent (s : HubState) : HubEvent → HubState
  | HubEvent.reply msg ts => (websocketHandleImage s msg ts).1
  | HubEvent.timeout k fid =>
    if s.futs fid = FutState.pending then (captureTimeoutStep s k fid).1 else s

/-- An interleaving of atomic events. -/
def runEvents (s : HubState) (evs : List HubEvent) : HubState :=
  evs.foldl applyEvent s

/-- The send loop of `broadcast_handler` (`server.py` lines 480-497):
count successful sends, collect failing peers, and prune them from the
registry after the loop. Returns `(sent, new registry)`. -/
def broadcast_handler_send (clients : List Peer) : Nat × List Peer :=
  ((clients.foldl
      (fun acc ws => if ws.sendOk then (acc.1 + 1, acc.2) else (acc.1, acc.2 ++ [ws]))
      ((0 : Nat), ([] : List Peer))).1,
   removeBad clients
     (clients.foldl
       (fun acc ws => if ws.sendOk then (acc.1 + 1, acc.2) else (acc.1, acc.2 ++ [ws]))
       ((0 : Nat), ([] : List Peer))).2)

/-- `raw_req_id or f"server_req_..."` for the GET path, where query values
are strings and `""` is falsy (`server.py` lines 196-198). -/
def reqKeyOfQuery (query : List (String × String)) (genId : String) : String :=
  match plookup "requestId" query with
  | some r => if r = "" then genId else r
  | none => genId

/-- `return_base64 = bool(payload.get("returnBase64", False))` when
`payload = dict(request.query)` (lines 193 and 204): query values are
strings, and `bool` of a string is `True` iff the string is non-empty. -/
def getQueryReturnBase64 (query : List (String × String)) : Bool :=
  match plookup "returnBase64" query with
  | some v => !(v == "")
  | none => false

/-- The GET entry point of `capture_request_handler`: parameters are taken
from the query string. -/
def capture_request_handler_GET (clients : List Peer) (s : HubState)
    (query : List (String × String)) (genId : String) (fid : Nat) :
    List Peer × HubState × Option CaptureResponse :=
  capture_request_handler_setup clients s (reqKeyOfQuery query genId) fid
    (getQueryReturnBase64 query)

/-- `score_state` (`server.py` lines 18-22). `matchNum` is the `"match"`
key. -/
structure ScoreState where
  ai1 : Int
  ai2 : Int
  matchNum : Int
deriving DecidableEq

/-- A value supplied for a score key, as seen through `int(...)`: either
the coercion succeeds with an integer, or it raises. -/
inductive ScoreVal
  | intVal (n : Int)
  | badVal
deriving DecidableEq

/-- A POST body for `/score`: the three recognized keys (absent = `none`)
plus whether any other key is present (so that the body can be a non-empty
dict without recognized keys). -/
structure ScorePayload where
  ai1 : Option ScoreVal
  ai2 : Option ScoreVal
  matchNum : Option ScoreVal
  otherKeys : Bool
deriving DecidableEq

/-- Responses of the POST branch of `score_handler`:
`invalid_or_empty_payload` (400), `validation_failed` (400), or the 200
response carrying the new score. -/
inductive ScoreResponse
  | invalidOrEmpty
  | validationFailed (details : List String)
  | okBroadcast (score : ScoreState)
deriving DecidableEq

/-- The POST branch of `score_handler` (`server.py` lines 503-584).
Returns the new `score_state`, the HTTP response, and whether the
`score_update` broadcast was performed. Keys are processed in the order
`ai1`, `ai2`, `match`; a key whose `int()` raises appends its error and
leaves that key unchanged, while keys that coerce are written to
`score_state` immediately. The broadcast happens only when the error list
is empty. -/
def scoreApplyAi1 (st : ScoreState) (v : Option ScoreVal) : ScoreState × List String :=
  match v with
  | some (ScoreVal.intVal n) => ({ st with ai1 := n }, [])
  | some ScoreVal.badVal => (st, ["invalid_ai1"])
  | none => (st, [])

def scoreApplyAi2 (r : ScoreState × List String) (v : Option ScoreVal) :
    ScoreState × List String :=
  match v with
  | some (ScoreVal.intVal n) => ({ r.1 with ai2 := n }, r.2)
  | some ScoreVal.badVal => (r.1, r.2 ++ ["invalid_ai2"])
  | none => r

def scoreApplyMatch (r : ScoreState × List String) (v : Option ScoreVal) :
    ScoreState × List String :=
  match v with
  | some (ScoreVal.intVal n) => ({ r.1 with matchNum := n }, r.2)
  | some ScoreVal.badVal => (r.1, r.2 ++ ["invalid_match"])
  | none => r

/-- The sequential `if 'ai1' in payload / 'ai2' in payload / 'match' in
payload` update-and-collect-errors section (`server.py` lines 533-552). -/
def scoreApply (st : ScoreState) (p : ScorePayload) : ScoreState × List String :=
  scoreApplyMatch (scoreApplyAi2 (scoreApplyAi1 st p.ai1) p.ai2) p.matchNum

def score_handler_post (st : ScoreState) (p : ScorePayload) :
    ScoreState × ScoreResponse × Bool :=
  if p.ai1 = none ∧ p.ai2 = none ∧ p.matchNum = none ∧ p.otherKeys = false then
    (st, ScoreResponse.invalidOrEmpty, false)
  else
    if (scoreApply st p).2 = [] then
      ((scoreApply st p).1, ScoreResponse.okBroadcast (scoreApply st p).1, true)
    else
      ((scoreApply st p).1, ScoreResponse.validationFailed (scoreApply st p).2, false)

example : b64decode "aGk=" = some [104, 105] := rfl
example : b64decode "QUJD" = some [65, 66, 67] := rfl
example : b64decode "x===" = none := rfl
example : b64decode "aGk" = none := rfl
example : b64decode "!!!" = some [] := rfl
example : b64decode "!!!=" = some [] := rfl
example : b64decode "aG==aGk=" = some [104] := rfl
example : b64decode "aG k =" = some [104, 105] := rfl
example : normalizePayload "  aGk= " = "aGk=" := rfl
example : normalizePayload "data:image/png;base64,QUJD" = "QUJD" := rfl
example : normalizePayload "aGk" = "aGk=" := rfl
example : extOf (lowerStr "image/PNG") = "png" := rfl

/-! ## Association-list and future-store lemmas -/

theorem plookup_eraseKey_self (m : List (String × Entry)) (k : String) :
    plookup k (eraseKey m k) = none := by
  induction m with
  | nil => rfl
  | cons p t ih =>
    obtain ⟨a, v⟩ := p
    by_cases h : a = k
    · simpa [eraseKey, h] using ih
    · simpa [eraseKey, h, plookup] using ih

theorem eraseKey_of_plookup_none (m : List (String × Entry)) (k : String)
    (h : plookup k m = none) : eraseKey m k = m := by
  induction m with
  | nil => rfl
  | cons p t ih =>
    obtain ⟨a, v⟩ := p
    by_cases ha : a = k
    · simp [plookup, ha] at h
    · simp only [plookup, if_neg ha] at h
      simp [eraseKey, ha, ih h]

theorem plookup_dinsert_self (m : List (String × Entry)) (k : String) (v : Entry) :
    plookup k (dinsert m k v) = some v := by
  simp [dinsert, plookup]

theorem futSet_self (f : Nat → FutState) (fid : Nat) (v : FutState) :
    futSet f fid v fid = v := by
  simp [futSet]

theorem futSet_ne (f : Nat → FutState) (fid : Nat) (v : FutState) (i : Nat)
    (h : i ≠ fid) : futSet f fid v i = f i := by
  simp [futSet, h]

/-! ## A settled future is never written again

`_resolve_entry` completes a future only when `not fut.done()`, and the
timeout branch fires only while the future is pending; so a future that is
already resolved or cancelled is never modified by any later event. -/

theorem resolveEntry_preserve (futs : Nat → FutState) (entry : Option Entry)
    (kv b64p : String) (n : Nat) (fp : String) (fid : Nat)
    (h : futs fid ≠ FutState.pending) :
    (resolveEntry futs entry kv b64p n fp).1 fid = futs fid := by
  cases entry with
  | none => rfl
  | some e =>
    cases he : futs e.futId with
    | pending =>
      have hne : fid ≠ e.futId := by
        intro heq
        rw [heq] at h
        exact h he
      simp [resolveEntry, he, futSet, hne]
    | resolved r => simp [resolveEntry, he]
    | cancelled => simp [resolveEntry, he]

theorem tryResolveKey_preserve (s : HubState) (k : Option String)
    (b64p : String) (n : Nat) (fp : String) (fid : Nat)
    (h : s.futs fid ≠ FutState.pending) :
    (tryResolveKey s k b64p n fp).1.futs fid = s.futs fid := by
  cases k with
  | none => rfl
  | some c => exact resolveEntry_preserve s.futs _ c b64p n fp fid h

theorem routeReply_preserve (s : HubState) (cid altReq : Option String)
    (b64p : String) (n : Nat) (fp : String) (fid : Nat)
    (h : s.futs fid ≠ FutState.pending) :
    (routeReply s cid altReq b64p n fp).1.futs fid = s.futs fid := by
  unfold routeReply
  have h1 := tryResolveKey_preserve s cid b64p n fp fid h
  have h2 : (tryResolveKey s cid b64p n fp).1.futs fid ≠ FutState.pending := by
    rw [h1]
    exact h
  split
  · exact h1
  · rw [tryResolveKey_preserve _ altReq b64p n fp fid h2, h1]

theorem handleImage_preserve (mb : Nat) (s : HubState) (msg : InboundMsg) (ts : Nat)
    (fid : Nat) (h : s.futs fid ≠ FutState.pending) :
    (handleImage mb s msg ts).1.futs fid = s.futs fid := by
  unfold handleImage
  split
  · cases himg : imageField msg with
    | none => rfl
    | some ifld =>
      simp only
      split
      · rfl
      · cases hdec : b64decode (normalizePayload ifld) with
        | none => rfl
        | some binary =>
          simp only
          split
          · rfl
          · exact routeReply_preserve _ _ _ _ _ _ fid h
  · rfl

theorem applyEvent_preserve (s : HubState) (e : HubEvent) (fid : Nat)
    (h : s.futs fid ≠ FutState.pending) :
    (applyEvent s e).futs fid = s.futs fid := by
  cases e with
  | reply msg ts => exact handleImage_preserve MAX_CAPTURE_BYTES s msg ts fid h
  | timeout k fid2 =>
    simp only [applyEvent]
    split
    · next hp =>
        have hne : fid ≠ fid2 := by
          intro heq
          rw [heq] at h
          exact h hp
        simp [captureTimeoutStep, futSet, hne]
    · rfl

theorem runEvents_preserve (s : HubState) (evs : List HubEvent) (fid : Nat)
    (h : s.futs fid ≠ FutState.pending) :
    (runEvents s evs).futs fid = s.futs fid := by
  induction evs generalizing s with
  | nil => rfl
  | cons e t ih =>
    have h1 := applyEvent_preserve s e fid h
    have h2 : (applyEvent s e).futs fid ≠ FutState.pending := by
      rw [h1]
      exact h
    show (runEvents (applyEvent s e) t).futs fid = s.futs fid
    rw [ih (applyEvent s e) h2, h1]

theorem applyEvent_timeout_settles (s : HubState) (k : String) (fid : Nat) :
    (applyEvent s (HubEvent.timeout k fid)).futs fid ≠ FutState.pending := by
  simp only [applyEvent]
  split
  · simp [captureTimeoutStep, futSet]
  · next hnp => exact hnp

theorem runEvents_settles (s : HubState) (evs : List HubEvent) (k : String) (fid : Nat)
    (h : HubEvent.timeout k fid ∈ evs) :
    (runEvents s evs).futs fid ≠ FutState.pending := by
  induction evs generalizing s with
  | nil => cases h
  | cons e t ih =>
    rcases List.mem_cons.mp h with he | ht
    · subst he
      have hs := applyEvent_timeout_settles s k fid
      show (runEvents (applyEvent s (HubEvent.timeout k fid)) t).futs fid ≠ FutState.pending
      rw [runEvents_preserve _ t fid hs]
      exact hs
    · exact ih (applyEvent s e) ht

/-! ## Unmatched keys leave the table and the futures untouched -/

theorem tryResolveKey_miss (s : HubState) (c b64p : String) (n : Nat) (fp : String)
    (h : plookup c s.pending = none) :
    tryResolveKey s (some c) b64p n fp = (s, false) := by
  simp [tryResolveKey, h, resolveEntry, eraseKey_of_plookup_none s.pending c h]

theorem routeReply_miss (s : HubState) (cid altReq : Option String)
    (b64p : String) (n : Nat) (fp : String)
    (hc : ∀ c, cid = some c → plookup c s.pending = none)
    (ha : ∀ a2, altReq = some a2 → plookup a2 s.pending = none) :
    routeReply s cid altReq b64p n fp = (s, false) := by
  have h1 : tryResolveKey s cid b64p n fp = (s, false) := by
    cases cid with
    | none => rfl
    | some c => exact tryResolveKey_miss s c b64p n fp (hc c rfl)
  have h2 : tryResolveKey s altReq b64p n fp = (s, false) := by
    cases altReq with
    | none => rfl
    | some a2 => exact tryResolveKey_miss s a2 b64p n fp (ha a2 rfl)
  unfold routeReply
  rw [h1]
  simp [h2]

theorem handleImage_noMatch (mb : Nat) (s : HubState) (msg : InboundMsg) (ts : Nat)
    (hc : ∀ c, extractCaptureId msg = some c → plookup c s.pending = none)
    (ha : ∀ r2, msg.requestId = some r2 → plookup r2 s.pending = none) :
    (handleImage mb s msg ts).1.pending = s.pending
    ∧ (handleImage mb s msg ts).1.futs = s.futs
    ∧ (handleImage mb s msg ts).2 ≠ RouterOutcome.resolvedOk := by
  unfold handleImage
  split
  · cases himg : imageField msg with
    | none => exact ⟨rfl, rfl, by simp⟩
    | some ifld =>
      simp only
      split
      · exact ⟨rfl, rfl, by simp⟩
      · cases hdec : b64decode (normalizePayload ifld) with
        | none => exact ⟨rfl, rfl, by simp⟩
        | some binary =>
          simp only
          split
          · exact ⟨rfl, rfl, by simp⟩
          · rw [routeReply_miss { s with files := captureFilePath msg ts :: s.files }
              (extractCaptureId msg) msg.requestId (normalizePayload ifld) binary.length
              (captureFilePath msg ts) (fun c h => hc c h) (fun r2 h => ha r2 h)]
            exact ⟨rfl, rfl, by simp [withOutcome]⟩
  · exact ⟨rfl, rfl, by simp⟩

/-! ## Claim theorems -/

/-- **C1.** For every registered correlation identifier (a pending waiter
whose future is `fid`), resolution by an inbound reply and timeout-expiry
are mutually exclusive: in any interleaving of event-loop steps that
contains the waiter's deadline event, the future ends in exactly one of
{resolved-with-payload, timed-out(cancelled)} — never both, never
neither — and whichever of the two paths reached the waiter first has won:
every later event leaves the settled outcome unchanged (the loser is a
no-op). -/
theorem resolve_timeout_mutually_exclusive (s : HubState) (fid : Nat) (key : String)
    (evs : List HubEvent) (hreg : s.futs fid = FutState.pending)
    (ht : HubEvent.timeout key fid ∈ evs) :
    ((∃ r, (runEvents s evs).futs fid = FutState.resolved r) ∨
      (runEvents s evs).futs fid = FutState.cancelled)
    ∧ ¬((∃ r, (runEvents s evs).futs fid = FutState.resolved r) ∧
        (runEvents s evs).futs fid = FutState.cancelled)
    ∧ ∀ extra : List HubEvent,
        (runEvents (runEvents s evs) extra).futs fid = (runEvents s evs).futs fid := by
  have hset := runEvents_settles s evs key fid ht
  refine ⟨?_, ?_, ?_⟩
  · cases hv : (runEvents s evs).futs fid with
    | pending => exact absurd hv hset
    | resolved r => exact Or.inl ⟨r, rfl⟩
    | cancelled => exact Or.inr rfl
  · rintro ⟨⟨r, h1⟩, h2⟩
    rw [h1] at h2
    cases h2
  · intro extra
    exact runEvents_preserve _ extra fid hset

/-- Witness for C1 at a concrete registered waiter `"r1"`/future `0` and
the interleaving consisting of just the timeout event. -/
theorem resolve_timeout_mutually_exclusive_witness :
    ((∃ r, (runEvents (⟨[("r1", ⟨0, false⟩)], fun _ => FutState.pending, []⟩ : HubState)
        [HubEvent.timeout "r1" 0]).futs 0 = FutState.resolved r) ∨
      (runEvents (⟨[("r1", ⟨0, false⟩)], fun _ => FutState.pending, []⟩ : HubState)
        [HubEvent.timeout "r1" 0]).futs 0 = FutState.cancelled)
    ∧ ¬((∃ r, (runEvents (⟨[("r1", ⟨0, false⟩)], fun _ => FutState.pending, []⟩ : HubState)
        [HubEvent.timeout "r1" 0]).futs 0 = FutState.resolved r) ∧
        (runEvents (⟨[("r1", ⟨0, false⟩)], fun _ => FutState.pending, []⟩ : HubState)
        [HubEvent.timeout "r1" 0]).futs 0 = FutState.cancelled)
    ∧ ∀ extra : List HubEvent,
        (runEvents (runEvents (⟨[("r1", ⟨0, false⟩)], fun _ => FutState.pending, []⟩ : HubState)
          [HubEvent.timeout "r1" 0]) extra).futs 0 =
        (runEvents (⟨[("r1", ⟨0, false⟩)], fun _ => FutState.pending, []⟩ : HubState)
          [HubEvent.timeout "r1" 0]).futs 0 :=
  resolve_timeout_mutually_exclusive
    (⟨[("r1", ⟨0, false⟩)], fun _ => FutState.pending, []⟩ : HubState) 0 "r1"
    [HubEvent.timeout "r1" 0] rfl (by simp)

/-- **C2.** When `Await` times out, the timeout branch removes the waiter
from the correlation table: the response is `CorrelationTimeout`
(`timeout_waiting_for_capture`), immediately afterwards the identifier is
absent from `pending_captures`, and a late-arriving reply tagged with that
identifier finds no match: it is dropped, leaving the table unchanged and
resolving nothing. -/
theorem timeout_removes_waiter (s : HubState) (key : String) (fid : Nat)
    (msg : InboundMsg) (ts : Nat)
    (hcid : extractCaptureId msg = some key)
    (halt : msg.requestId = none ∨ msg.requestId = some key) :
    (captureTimeoutStep s key fid).2 = CaptureResponse.timeout key
    ∧ plookup key (captureTimeoutStep s key fid).1.pending = none
    ∧ (websocketHandleImage (captureTimeoutStep s key fid).1 msg ts).1.pending
        = (captureTimeoutStep s key fid).1.pending
    ∧ (websocketHandleImage (captureTimeoutStep s key fid).1 msg ts).2
        ≠ RouterOutcome.resolvedOk := by
  have hlk : plookup key (captureTimeoutStep s key fid).1.pending = none :=
    plookup_eraseKey_self s.pending key
  have hmm := handleImage_noMatch MAX_CAPTURE_BYTES (captureTimeoutStep s key fid).1 msg ts
    (fun c h => by
      rw [hcid] at h
      injection h with h2
      rw [← h2]
      exact hlk)
    (fun r2 h => by
      rcases halt with h0 | h0
      · rw [h0] at h
        cases h
      · rw [h0] at h
        injection h with h2
        rw [← h2]
        exact hlk)
  exact ⟨rfl, hlk, hmm.1, hmm.2.2⟩

/-- Witness for C2: waiter `"r1"`/future `0`, a late reply tagged `"r1"`. -/
theorem timeout_removes_waiter_witness :
    (captureTimeoutStep (⟨[("r1", ⟨0, false⟩)], fun _ => FutState.pending, []⟩ : HubState)
      "r1" 0).2 = CaptureResponse.timeout "r1"
    ∧ plookup "r1" (captureTimeoutStep
        (⟨[("r1", ⟨0, false⟩)], fun _ => FutState.pending, []⟩ : HubState) "r1" 0).1.pending = none
    ∧ (websocketHandleImage (captureTimeoutStep
        (⟨[("r1", ⟨0, false⟩)], fun _ => FutState.pending, []⟩ : HubState) "r1" 0).1
        (⟨some "image_capture", some "r1", none, none, some "aGk=",
          none, none, none, none, none, none⟩ : InboundMsg) 5).1.pending
        = (captureTimeoutStep
        (⟨[("r1", ⟨0, false⟩)], fun _ => FutState.pending, []⟩ : HubState) "r1" 0).1.pending
    ∧ (websocketHandleImage (captureTimeoutStep
        (⟨[("r1", ⟨0, false⟩)], fun _ => FutState.pending, []⟩ : HubState) "r1" 0).1
        (⟨some "image_capture", some "r1", none, none, some "aGk=",
          none, none, none, none, none, none⟩ : InboundMsg) 5).2
        ≠ RouterOutcome.resolvedOk :=
  timeout_removes_waiter
    (⟨[("r1", ⟨0, false⟩)], fun _ => FutState.pending, []⟩ : HubState) "r1" 0
    (⟨some "image_capture", some "r1", none, none, some "aGk=",
      none, none, none, none, none, none⟩ : InboundMsg) 5 rfl (Or.inl rfl)

/-- **C3.** A capture command issued while the peer registry is empty is
rejected immediately with the `no_connected_clients` error (a response
distinct from the timeout error), with no broadcast attempted, the hub
state unchanged, and no entry added to the correlation table. -/
theorem capture_no_peers_rejected (s : HubState) (reqKey : String) (fid : Nat) (rb : Bool) :
    capture_request_handler_setup [] s reqKey fid rb = ([], s, some CaptureResponse.noClients)
    ∧ ∀ k, CaptureResponse.noClients ≠ CaptureResponse.timeout k := by
  refine ⟨rfl, ?_⟩
  intro k h
  cases h

/-- **C4.** An inbound reply whose correlation identifier has no pending
entry (never registered, or already resolved or expired and hence popped)
resolves no waiter, leaves the correlation table unchanged, and raises no
error: the outcome is a logged no-op, never a resolution. -/
theorem unmatched_reply_noop (mb : Nat) (s : HubState) (msg : InboundMsg) (ts : Nat)
    (hc : ∀ c, extractCaptureId msg = some c → plookup c s.pending = none)
    (ha : ∀ r2, msg.requestId = some r2 → plookup r2 s.pending = none) :
    (handleImage mb s msg ts).1.pending = s.pending
    ∧ (handleImage mb s msg ts).1.futs = s.futs
    ∧ (handleImage mb s msg ts).2 ≠ RouterOutcome.resolvedOk :=
  handleImage_noMatch mb s msg ts hc ha

/-- Witness for C4: a valid reply tagged `"zz"` against a table holding
only `"other"`. -/
theorem unmatched_reply_noop_witness :
    (handleImage MAX_CAPTURE_BYTES
      (⟨[("other", ⟨3, false⟩)], fun _ => FutState.pending, []⟩ : HubState)
      (⟨some "image_capture", some "zz", none, none, some "aGk=",
        none, none, none, none, none, none⟩ : InboundMsg) 9).1.pending
      = (⟨[("other", ⟨3, false⟩)], fun _ => FutState.pending, []⟩ : HubState).pending
    ∧ (handleImage MAX_CAPTURE_BYTES
      (⟨[("other", ⟨3, false⟩)], fun _ => FutState.pending, []⟩ : HubState)
      (⟨some "image_capture", some "zz", none, none, some "aGk=",
        none, none, none, none, none, none⟩ : InboundMsg) 9).1.futs
      = (⟨[("other", ⟨3, false⟩)], fun _ => FutState.pending, []⟩ : HubState).futs
    ∧ (handleImage MAX_CAPTURE_BYTES
      (⟨[("other", ⟨3, false⟩)], fun _ => FutState.pending, []⟩ : HubState)
      (⟨some "image_capture", some "zz", none, none, some "aGk=",
        none, none, none, none, none, none⟩ : InboundMsg) 9).2
      ≠ RouterOutcome.resolvedOk :=
  unmatched_reply_noop MAX_CAPTURE_BYTES
    (⟨[("other", ⟨3, false⟩)], fun _ => FutState.pending, []⟩ : HubState)
    (⟨some "image_capture", some "zz", none, none, some "aGk=",
      none, none, none, none, none, none⟩ : InboundMsg) 9
    (fun c h => by
      have h2 : some "zz" = some c := h
      injection h2 with h3
      rw [← h3]
      rfl)
    (fun r2 h => by cases h)

/-- **C5.** An inbound reply whose decoded payload exceeds the configured
byte limit is rejected before any waiter lookup, file save, or resolution
is attempted: the hub state is returned entirely unchanged with the
`tooLarge` outcome, and the corresponding requester consequently still
observes the timeout (the deadline event cancels its still-pending future
and the response is `CorrelationTimeout`), not a false success. -/
theorem oversized_reply_rejected (mb : Nat) (s : HubState) (msg : InboundMsg) (ts : Nat)
    (ifld : String) (binary : List Nat)
    (htype : msg.type = some "image_capture" ∨ msg.type = some "frame_image")
    (himg : imageField msg = some ifld)
    (hne : ifld ≠ "")
    (hdec : b64decode (normalizePayload ifld) = some binary)
    (hbig : binary.length > mb) :
    handleImage mb s msg ts = (s, RouterOutcome.tooLarge)
    ∧ ∀ k fid, s.futs fid = FutState.pending →
        ((applyEvent (handleImage mb s msg ts).1 (HubEvent.timeout k fid)).futs fid
            = FutState.cancelled
        ∧ (captureTimeoutStep (handleImage mb s msg ts).1 k fid).2
            = CaptureResponse.timeout k) := by
  have hmain : handleImage mb s msg ts = (s, RouterOutcome.tooLarge) := by
    unfold handleImage
    split
    · cases h2 : imageField msg with
      | none =>
        rw [h2] at himg
        cases himg
      | some ifld2 =>
        rw [h2] at himg
        injection himg with h3
        subst h3
        simp only
        split
        · next he => exact absurd he hne
        · cases h4 : b64decode (normalizePayload ifld2) with
          | none =>
            rw [h4] at hdec
            cases hdec
          | some binary2 =>
            rw [h4] at hdec
            injection hdec with h5
            subst h5
            simp only
            split
            · rfl
            · next hn => exact absurd hbig hn
    · next hnt => exact absurd htype hnt
  refine ⟨hmain, ?_⟩
  intro k fid hp
  rw [hmain]
  refine ⟨?_, rfl⟩
  simp only [applyEvent]
  rw [if_pos hp]
  exact futSet_self s.futs fid FutState.cancelled

/-- Witness for C5 with limit 1 byte and the two-byte payload `"aGk="`. -/
theorem oversized_reply_rejected_witness :
    handleImage 1 (⟨[("r1", ⟨0, false⟩)], fun _ => FutState.pending, []⟩ : HubState)
      (⟨some "image_capture", some "r1", none, none, some "aGk=",
        none, none, none, none, none, none⟩ : InboundMsg) 3
      = ((⟨[("r1", ⟨0, false⟩)], fun _ => FutState.pending, []⟩ : HubState),
         RouterOutcome.tooLarge)
    ∧ ((applyEvent (handleImage 1
        (⟨[("r1", ⟨0, false⟩)], fun _ => FutState.pending, []⟩ : HubState)
        (⟨some "image_capture", some "r1", none, none, some "aGk=",
          none, none, none, none, none, none⟩ : InboundMsg) 3).1
        (HubEvent.timeout "r1" 0)).futs 0 = FutState.cancelled
      ∧ (captureTimeoutStep (handleImage 1
        (⟨[("r1", ⟨0, false⟩)], fun _ => FutState.pending, []⟩ : HubState)
        (⟨some "image_capture", some "r1", none, none, some "aGk=",
          none, none, none, none, none, none⟩ : InboundMsg) 3).1 "r1" 0).2
        = CaptureResponse.timeout "r1") :=
  ⟨(oversized_reply_rejected 1
      (⟨[("r1", ⟨0, false⟩)], fun _ => FutState.pending, []⟩ : HubState)
      (⟨some "image_capture", some "r1", none, none, some "aGk=",
        none, none, none, none, none, none⟩ : InboundMsg) 3 "aGk=" [104, 105]
      (Or.inl rfl) rfl (by decide) rfl (by decide)).1,
   (oversized_reply_rejected 1
      (⟨[("r1", ⟨0, false⟩)], fun _ => FutState.pending, []⟩ : HubState)
      (⟨some "image_capture", some "r1", none, none, some "aGk=",
        none, none, none, none, none, none⟩ : InboundMsg) 3 "aGk=" [104, 105]
      (Or.inl rfl) rfl (by decide) rfl (by decide)).2 "r1" 0 rfl⟩

/-! ## The hit path: a matching reply resolves the registered waiter -/

theorem tryResolveKey_hit (s : HubState) (c b64p : String) (n : Nat) (fp : String)
    (e : Entry) (hl : plookup c s.pending = some e)
    (hp : s.futs e.futId = FutState.pending) :
    tryResolveKey s (some c) b64p n fp =
      ({ s with pending := eraseKey s.pending c,
                futs := futSet s.futs e.futId (FutState.resolved
                  (if e.return_base64 then CaptureResult.rawPayload b64p n c
                   else CaptureResult.fileRef fp n c)) }, true) := by
  simp [tryResolveKey, hl, resolveEntry, hp]

theorem routeReply_hit (s : HubState) (c : String) (altReq : Option String)
    (b64p : String) (n : Nat) (fp : String) (e : Entry)
    (hl : plookup c s.pending = some e)
    (hp : s.futs e.futId = FutState.pending) :
    routeReply s (some c) altReq b64p n fp =
      ({ s with pending := eraseKey s.pending c,
                futs := futSet s.futs e.futId (FutState.resolved
                  (if e.return_base64 then CaptureResult.rawPayload b64p n c
                   else CaptureResult.fileRef fp n c)) }, true) := by
  unfold routeReply
  rw [tryResolveKey_hit s c b64p n fp e hl hp]
  simp

theorem handleImage_hit (mb : Nat) (s : HubState) (msg : InboundMsg) (ts : Nat)
    (c ifld : String) (binary : List Nat) (e : Entry)
    (htype : msg.type = some "image_capture" ∨ msg.type = some "frame_image")
    (hcid : extractCaptureId msg = some c)
    (himg : imageField msg = some ifld)
    (hne : ifld ≠ "")
    (hdec : b64decode (normalizePayload ifld) = some binary)
    (hsize : ¬ binary.length > mb)
    (hl : plookup c s.pending = some e)
    (hp : s.futs e.futId = FutState.pending) :
    handleImage mb s msg ts =
      ({ pending := eraseKey s.pending c,
         futs := futSet s.futs e.futId (FutState.resolved
           (if e.return_base64 then
              CaptureResult.rawPayload (normalizePayload ifld) binary.length c
            else CaptureResult.fileRef (captureFilePath msg ts) binary.length c)),
         files := captureFilePath msg ts :: s.files }, RouterOutcome.resolvedOk) := by
  unfold handleImage
  split
  · cases h2 : imageField msg with
    | none =>
      rw [h2] at himg
      cases himg
    | some ifld2 =>
      rw [h2] at himg
      injection himg with h3
      subst h3
      simp only
      split
      · next he => exact absurd he hne
      · cases h4 : b64decode (normalizePayload ifld2) with
        | none =>
          rw [h4] at hdec
          cases hdec
        | some binary2 =>
          rw [h4] at hdec
          injection hdec with h5
          subst h5
          simp only
          split
          · next hb => exact absurd hb hsize
          · rw [hcid]
            rw [routeReply_hit { s with files := captureFilePath msg ts :: s.files }
              c msg.requestId (normalizePayload ifld2) binary2.length
              (captureFilePath msg ts) e hl hp]
            rfl
  · next hnt => exact absurd htype hnt

/-- **C6.** Round-trip: a capture request registered under identifier
`"r1"` (with at least one connected peer, so registration happens and no
rejection is returned), followed by an inbound reply tagged `"r1"` whose
payload decodes under the size limit, resolves the requester's future
before any timeout: with `return_base64 = true` the future holds the raw
base64 payload annotated with its decoded size; with `return_base64 =
false` it holds a storage reference (a path present among the saved
files), also annotated with the decoded size. In either case the reply is
logged as resolved, and the subsequent deadline event is a no-op. -/
theorem capture_roundtrip_r1 (clients : List Peer) (s : HubState) (msg : InboundMsg)
    (ts fid : Nat) (rb : Bool) (ifld : String) (binary : List Nat)
    (hcl : clients ≠ [])
    (htype : msg.type = some "image_capture" ∨ msg.type = some "frame_image")
    (hid : msg.captureId = some "r1")
    (himg : imageField msg = some ifld)
    (hne : ifld ≠ "")
    (hdec : b64decode (normalizePayload ifld) = some binary)
    (hsize : ¬ binary.length > MAX_CAPTURE_BYTES) :
    (capture_request_handler_setup clients s "r1" fid rb).2.2 = none
    ∧ (rb = true →
        (websocketHandleImage (capture_request_handler_setup clients s "r1" fid rb).2.1
          msg ts).1.futs fid
          = FutState.resolved
              (CaptureResult.rawPayload (normalizePayload ifld) binary.length "r1"))
    ∧ (rb = false →
        ∃ fp, (websocketHandleImage (capture_request_handler_setup clients s "r1" fid rb).2.1
          msg ts).1.futs fid
          = FutState.resolved (CaptureResult.fileRef fp binary.length "r1")
          ∧ fp ∈ (websocketHandleImage (capture_request_handler_setup clients s "r1" fid rb).2.1
              msg ts).1.files)
    ∧ (websocketHandleImage (capture_request_handler_setup clients s "r1" fid rb).2.1
        msg ts).2 = RouterOutcome.resolvedOk
    ∧ applyEvent (websocketHandleImage (capture_request_handler_setup clients s "r1" fid rb).2.1
          msg ts).1 (HubEvent.timeout "r1" fid)
        = (websocketHandleImage (capture_request_handler_setup clients s "r1" fid rb).2.1
            msg ts).1 := by
  have hsetup : capture_request_handler_setup clients s "r1" fid rb
      = (removeBad clients (captureBroadcastBad clients),
         { s with pending := dinsert s.pending "r1" ⟨fid, rb⟩,
                  futs := futSet s.futs fid FutState.pending }, none) := by
    unfold capture_request_handler_setup
    rw [if_neg hcl]
  have hcid : extractCaptureId msg = some "r1" := by
    unfold extractCaptureId
    rw [hid]
    rfl
  have hl : plookup "r1"
      ({ s with pending := dinsert s.pending "r1" ⟨fid, rb⟩,
                futs := futSet s.futs fid FutState.pending } : HubState).pending
      = some ⟨fid, rb⟩ :=
    plookup_dinsert_self s.pending "r1" ⟨fid, rb⟩
  have hp : ({ s with pending := dinsert s.pending "r1" ⟨fid, rb⟩,
                      futs := futSet s.futs fid FutState.pending } : HubState).futs
      ((⟨fid, rb⟩ : Entry).futId) = FutState.pending :=
    futSet_self s.futs fid FutState.pending
  have hW := handleImage_hit MAX_CAPTURE_BYTES
    ({ s with pending := dinsert s.pending "r1" ⟨fid, rb⟩,
              futs := futSet s.futs fid FutState.pending } : HubState)
    msg ts "r1" ifld binary ⟨fid, rb⟩ htype hcid himg hne hdec hsize hl hp
  rw [hsetup]
  unfold websocketHandleImage
  refine ⟨rfl, ?_, ?_, ?_, ?_⟩
  · intro hrb
    rw [hW]
    have := futSet_self
      ({ s with pending := dinsert s.pending "r1" ⟨fid, rb⟩,
                futs := futSet s.futs fid FutState.pending } : HubState).futs fid
      (FutState.resolved
        (if rb then CaptureResult.rawPayload (normalizePayload ifld) binary.length "r1"
         else CaptureResult.fileRef (captureFilePath msg ts) binary.length "r1"))
    rw [hrb] at this ⊢
    simpa using this
  · intro hrb
    refine ⟨captureFilePath msg ts, ?_, ?_⟩
    · rw [hW]
      have := futSet_self
        ({ s with pending := dinsert s.pending "r1" ⟨fid, rb⟩,
                  futs := futSet s.futs fid FutState.pending } : HubState).futs fid
        (FutState.resolved
          (if rb then CaptureResult.rawPayload (normalizePayload ifld) binary.length "r1"
           else CaptureResult.fileRef (captureFilePath msg ts) binary.length "r1"))
      rw [hrb] at this ⊢
      simpa using this
    · rw [hW]
      exact List.mem_cons_self _ _
  · rw [hW]
  · rw [hW]
    simp only [applyEvent]
    rw [if_neg]
    intro hcon
    have h9 := futSet_self
      ({ s with pending := dinsert s.pending "r1" ⟨fid, rb⟩,
                futs := futSet s.futs fid FutState.pending } : HubState).futs fid
      (FutState.resolved
        (if rb then CaptureResult.rawPayload (normalizePayload ifld) binary.length "r1"
         else CaptureResult.fileRef (captureFilePath msg ts) binary.length "r1"))
    rw [h9] at hcon
    cases hcon

/-- Witness for C6: one healthy peer, request `"r1"` with raw encoding
requested, reply `"aGk="` (2 decoded bytes). -/
theorem capture_roundtrip_r1_witness :
    (websocketHandleImage (capture_request_handler_setup [⟨0, true⟩]
        (⟨[], fun _ => FutState.cancelled, []⟩ : HubState) "r1" 0 true).2.1
      (⟨some "image_capture", some "r1", none, none, some "aGk=",
        none, none, none, none, none, none⟩ : InboundMsg) 7).1.futs 0
      = FutState.resolved (CaptureResult.rawPayload "aGk=" 2 "r1")
    ∧ (websocketHandleImage (capture_request_handler_setup [⟨0, true⟩]
        (⟨[], fun _ => FutState.cancelled, []⟩ : HubState) "r1" 0 true).2.1
      (⟨some "image_capture", some "r1", none, none, some "aGk=",
        none, none, none, none, none, none⟩ : InboundMsg) 7).2
      = RouterOutcome.resolvedOk :=
  ⟨(capture_roundtrip_r1 [⟨0, true⟩]
      (⟨[], fun _ => FutState.cancelled, []⟩ : HubState)
      (⟨some "image_capture", some "r1", none, none, some "aGk=",
        none, none, none, none, none, none⟩ : InboundMsg) 7 0 true "aGk=" [104, 105]
      (by decide) (Or.inl rfl) rfl rfl (by decide) rfl (by decide)).2.1 rfl,
   (capture_roundtrip_r1 [⟨0, true⟩]
      (⟨[], fun _ => FutState.cancelled, []⟩ : HubState)
      (⟨some "image_capture", some "r1", none, none, some "aGk=",
        none, none, none, none, none, none⟩ : InboundMsg) 7 0 true "aGk=" [104, 105]
      (by decide) (Or.inl rfl) rfl rfl (by decide) rfl (by decide)).2.2.2.1⟩

/-! ## Broadcast loop lemmas -/

theorem peerMem_true (p : Peer) (l : List Peer) : peerMem p l = true ↔ p ∈ l := by
  induction l with
  | nil => simp [peerMem]
  | cons q t ih =>
    by_cases h : q = p
    · simp [peerMem, h]
    · simp only [peerMem, if_neg h, List.mem_cons, ih]
      constructor
      · exact fun hm => Or.inr hm
      · rintro (he | hm)
        · exact absurd he.symm h
        · exact hm

theorem broadcast_fold (l : List Peer) (n : Nat) (b : List Peer) :
    l.foldl (fun acc ws => if ws.sendOk then (acc.1 + 1, acc.2) else (acc.1, acc.2 ++ [ws]))
      (n, b)
      = (n + (l.filter (fun p => p.sendOk)).length, b ++ l.filter (fun p => !p.sendOk)) := by
  induction l generalizing n b with
  | nil => simp
  | cons p t ih =>
    cases hp : p.sendOk with
    | true =>
      simp only [List.foldl_cons, hp, if_pos]
      rw [ih]
      simp [List.filter_cons, hp]
      omega
    | false =>
      simp only [List.foldl_cons, hp]
      rw [if_neg (by simp [hp]), ih]
      simp [List.filter_cons, hp]

theorem captureBad_fold (l : List Peer) (b : List Peer) :
    l.foldl (fun acc ws => if ws.sendOk then acc else acc ++ [ws]) b
      = b ++ l.filter (fun p => !p.sendOk) := by
  induction l generalizing b with
  | nil => simp
  | cons p t ih =>
    cases hp : p.sendOk with
    | true =>
      simp only [List.foldl_cons, hp, if_pos]
      rw [ih]
      simp [List.filter_cons, hp]
    | false =>
      simp only [List.foldl_cons, hp]
      rw [if_neg (by simp [hp]), ih]
      simp [List.filter_cons, hp]

theorem removeBad_filter (clients : List Peer) :
    removeBad clients (clients.filter (fun p => !p.sendOk))
      = clients.filter (fun p => p.sendOk) := by
  unfold removeBad
  refine List.filter_congr ?_
  intro x hx
  cases hs : x.sendOk with
  | true =>
    have hnm : ¬ x ∈ clients.filter (fun p => !p.sendOk) := by
      intro hmem
      rcases List.mem_filter.mp hmem with ⟨_, hb⟩
      rw [hs] at hb
      cases hb
    have h2 : peerMem x (clients.filter (fun p => !p.sendOk)) = false := by
      rw [← Bool.not_eq_true, peerMem_true]
      exact hnm
    simp [h2, hs]
  | false =>
    have h2 : peerMem x (clients.filter (fun p => !p.sendOk)) = true :=
      (peerMem_true _ _).mpr (List.mem_filter.mpr ⟨hx, by simp [hs]⟩)
    simp [h2, hs]

/-- **C7.** For every broadcast, a peer whose send fails is pruned from the
registry after the iteration (failures are batch-removed, never raised to
the caller), and the operation reports the count of peers for which
delivery succeeded: `broadcast_handler`'s loop returns exactly the number
of successful sends and leaves exactly the successful peers in the
registry; the capture handler's broadcast loop prunes identically; and in
particular two peers with one failing send yield a reported sent count of
1 and a registry of size 1. -/
theorem broadcast_prunes_and_counts (clients : List Peer) :
    (broadcast_handler_send clients).1 = (clients.filter (fun p => p.sendOk)).length
    ∧ (broadcast_handler_send clients).2 = clients.filter (fun p => p.sendOk)
    ∧ removeBad clients (captureBroadcastBad clients) = clients.filter (fun p => p.sendOk)
    ∧ broadcast_handler_send [⟨0, true⟩, ⟨1, false⟩] = (1, [⟨0, true⟩]) := by
  have hb : captureBroadcastBad clients = clients.filter (fun p => !p.sendOk) := by
    unfold captureBroadcastBad
    rw [captureBad_fold]
    simp
  have hf := broadcast_fold clients 0 []
  refine ⟨?_, ?_, ?_, ?_⟩
  · unfold broadcast_handler_send
    rw [hf]
    simp
  · unfold broadcast_handler_send
    rw [hf]
    simp only [List.nil_append]
    exact removeBad_filter clients
  · rw [hb]
    exact removeBad_filter clients
  · rfl

/-! ## Payload-normalization lemmas -/

theorem listStartsWith_append (p l : List Char) : listStartsWith p (p ++ l) = true := by
  induction p with
  | nil => rfl
  | cons c t ih => simp [listStartsWith, ih]

theorem charMem_append (c : Char) (x y : List Char) :
    charMem c (x ++ y) = (charMem c x || charMem c y) := by
  induction x with
  | nil => simp [charMem]
  | cons d t ih =>
    by_cases h : d = c
    · simp [charMem, h]
    · simp [charMem, h, ih]

theorem charMem_cons_self (c : Char) (b : List Char) : charMem c (c :: b) = true := by
  simp [charMem]

theorem dropThroughComma_append (a b : List Char) (h : charMem ',' a = false) :
    dropThroughComma (a ++ ',' :: b) = b := by
  induction a with
  | nil => simp [dropThroughComma]
  | cons c t ih =>
    by_cases hc : c = ','
    · rw [hc] at h
      rw [charMem_cons_self] at h
      cases h
    · simp only [charMem, if_neg (by exact fun he => hc he)] at h
      simp [dropThroughComma, hc, ih h]

/-- **C8.** On an inbound capture reply, the router extracts the
correlation identifier by the fallback chain primary `captureId` then
alias `requestId` (a present non-empty `captureId` always wins, and with
`captureId` absent or empty a non-empty `requestId` is used); the payload
is normalized before decoding: a `"data:"`-prefixed payload is truncated
to the portion after the first comma, and the string is padded with `'='`
to a multiple of 4 (only `'='` characters are ever appended); a payload
that fails to decode is discarded with no state change and no waiter
resolved. -/
theorem inbound_normalization_and_fallback :
    (∀ msg c, msg.captureId = some c → c ≠ "" → extractCaptureId msg = some c)
    ∧ (∀ msg r9, (msg.captureId = none ∨ msg.captureId = some "") →
        msg.requestId = some r9 → r9 ≠ "" → extractCaptureId msg = some r9)
    ∧ (∀ a b : List Char, charMem ',' a = false →
        stripDataUri (("data:".toList ++ a) ++ ',' :: b) = b)
    ∧ (∀ l : List Char, (padB64L l).length % 4 = 0
        ∧ ∃ k, k < 4 ∧ padB64L l = l ++ List.replicate k '=')
    ∧ (∀ mb st msg ts ifld,
        (msg.type = some "image_capture" ∨ msg.type = some "frame_image") →
        imageField msg = some ifld → ifld ≠ "" →
        b64decode (normalizePayload ifld) = none →
        handleImage mb st msg ts = (st, RouterOutcome.badDecode)) := by
  refine ⟨?_, ?_, ?_, ?_, ?_⟩
  · intro msg c h hne
    unfold extractCaptureId
    rw [h]
    simp [pyOrS, hne]
  · intro msg r9 hcap hr hne
    unfold extractCaptureId
    rcases hcap with h | h <;> rw [h, hr] <;> simp [pyOrS, hne]
  · intro a b h
    unfold stripDataUri
    rw [List.append_assoc]
    rw [if_pos (listStartsWith_append ("data:".toList) (a ++ ',' :: b))]
    have hcm : charMem ',' ("data:".toList ++ (a ++ ',' :: b)) = true := by
      rw [charMem_append, charMem_append, charMem_cons_self]
      simp
    rw [if_pos hcm, ← List.append_assoc]
    exact dropThroughComma_append ("data:".toList ++ a) b
      (by rw [charMem_append, h]; rfl)
  · intro l
    unfold padB64L
    by_cases h : l.length % 4 = 0
    · rw [if_pos h]
      exact ⟨h, 0, by omega, by simp⟩
    · rw [if_neg h]
      constructor
      · simp only [List.length_append, List.length_replicate]
        omega
      · exact ⟨4 - l.length % 4, by omega, rfl⟩
  · intro mb st msg ts ifld htype himg hne hdec
    unfold handleImage
    split
    · cases h2 : imageField msg with
      | none =>
        rw [h2] at himg
        cases himg
      | some ifld2 =>
        rw [h2] at himg
        injection himg with h3
        subst h3
        simp only
        split
        · next he => exact absurd he hne
        · cases h4 : b64decode (normalizePayload ifld2) with
          | none => rfl
          | some binary2 =>
            rw [h4] at hdec
            cases hdec
    · next hnt => exact absurd htype hnt

/-- Witness for C8: id fallback on concrete messages, data-URI stripping,
padding, and a reply whose payload `"x"` (padded to `"x==="`, a
`binascii.Error` in Python) is dropped with no state change. -/
theorem inbound_normalization_and_fallback_witness :
    extractCaptureId (⟨some "image_capture", some "abc", some "other", none,
      none, none, none, none, none, none, none⟩ : InboundMsg) = some "abc"
    ∧ extractCaptureId (⟨some "image_capture", none, some "rq", none,
      none, none, none, none, none, none, none⟩ : InboundMsg) = some "rq"
    ∧ stripDataUri (("data:".toList ++ "image/png;base64".toList) ++ ',' :: "QUJD".toList)
      = "QUJD".toList
    ∧ (padB64L "aGk".toList).length % 4 = 0
    ∧ handleImage 5 (⟨[], fun _ => FutState.pending, []⟩ : HubState)
      (⟨some "image_capture", some "r1", none, none, some "x",
        none, none, none, none, none, none⟩ : InboundMsg) 0
      = ((⟨[], fun _ => FutState.pending, []⟩ : HubState), RouterOutcome.badDecode) :=
  ⟨inbound_normalization_and_fallback.1
      (⟨some "image_capture", some "abc", some "other", none,
        none, none, none, none, none, none, none⟩ : InboundMsg) "abc" rfl (by decide),
   inbound_normalization_and_fallback.2.1
      (⟨some "image_capture", none, some "rq", none,
        none, none, none, none, none, none, none⟩ : InboundMsg) "rq" (Or.inl rfl) rfl
      (by decide),
   inbound_normalization_and_fallback.2.2.1 ("image/png;base64".toList) ("QUJD".toList)
      (by decide),
   (inbound_normalization_and_fallback.2.2.2.1 ("aGk".toList)).1,
   inbound_normalization_and_fallback.2.2.2.2 5
      (⟨[], fun _ => FutState.pending, []⟩ : HubState)
      (⟨some "image_capture", some "r1", none, none, some "x",
        none, none, none, none, none, none⟩ : InboundMsg) 0 "x" (Or.inl rfl) rfl
      (by decide) rfl⟩

/-- Counterexample to **C9** as stated: the POST body
`{"ai1": 5, "match": <uncoercible>}` makes the handler report
`validation_failed` and perform no broadcast — yet the `ai1` counter has
been successfully mutated (0 → 5) and the mutation persists. So a
successful mutation of the score state is *not* always followed by a
`score_update` broadcast. -/
theorem score_partial_mutation_no_broadcast_cex :
    (score_handler_post (⟨0, 0, 1⟩ : ScoreState)
      (⟨some (ScoreVal.intVal 5), none, some ScoreVal.badVal, false⟩ : ScorePayload)).1
      = (⟨5, 0, 1⟩ : ScoreState)
    ∧ (score_handler_post (⟨0, 0, 1⟩ : ScoreState)
      (⟨some (ScoreVal.intVal 5), none, some ScoreVal.badVal, false⟩ : ScorePayload)).2.1
      = ScoreResponse.validationFailed ["invalid_match"]
    ∧ (score_handler_post (⟨0, 0, 1⟩ : ScoreState)
      (⟨some (ScoreVal.intVal 5), none, some ScoreVal.badVal, false⟩ : ScorePayload)).2.2
      = false
    ∧ (⟨5, 0, 1⟩ : ScoreState) ≠ (⟨0, 0, 1⟩ : ScoreState) := by
  refine ⟨rfl, rfl, rfl, by decide⟩

/-- **C9 (amended).** The score counters are only ever written by the
score handler's update section; an update in which every provided key
coerces is followed by the `score_update` broadcast, and when the handler
reports `validation_failed` (or rejects an empty payload) no broadcast is
performed — but keys that coerced are still mutated, so a validation
failure does not imply the state is unchanged (only the empty-payload
rejection leaves it untouched). -/
theorem score_broadcast_iff_all_valid (st : ScoreState) (p : ScorePayload) :
    ((score_handler_post st p).2.2 = true ↔
      ∃ sc, (score_handler_post st p).2.1 = ScoreResponse.okBroadcast sc)
    ∧ (∀ d, (score_handler_post st p).2.1 = ScoreResponse.validationFailed d →
        (score_handler_post st p).2.2 = false)
    ∧ ((score_handler_post st p).2.1 = ScoreResponse.invalidOrEmpty →
        (score_handler_post st p).1 = st ∧ (score_handler_post st p).2.2 = false) := by
  unfold score_handler_post
  split
  · refine ⟨?_, ?_, ?_⟩
    · simp
    · intro d h
      cases h
    · intro h
      exact ⟨rfl, rfl⟩
  · split
    · refine ⟨?_, ?_, ?_⟩
      · simp
      · intro d h
        cases h
      · intro h
        cases h
    · refine ⟨?_, ?_, ?_⟩
      · simp
      · intro d h
        rfl
      · intro h
        cases h

/-- Witness for C9 (amended): a fully valid update is broadcast; an update
with an uncoercible key is not. -/
theorem score_broadcast_iff_all_valid_witness :
    (score_handler_post (⟨0, 0, 1⟩ : ScoreState)
      (⟨some (ScoreVal.intVal 2), some (ScoreVal.intVal 3), none, false⟩ : ScorePayload)).2.2
      = true
    ∧ (score_handler_post (⟨0, 0, 1⟩ : ScoreState)
      (⟨some ScoreVal.badVal, none, none, false⟩ : ScorePayload)).2.2 = false :=
  ⟨(score_broadcast_iff_all_valid (⟨0, 0, 1⟩ : ScoreState)
      (⟨some (ScoreVal.intVal 2), some (ScoreVal.intVal 3), none, false⟩ : ScorePayload)).1.mpr
      ⟨(⟨2, 3, 1⟩ : ScoreState), rfl⟩,
   (score_broadcast_iff_all_valid (⟨0, 0, 1⟩ : ScoreState)
      (⟨some ScoreVal.badVal, none, none, false⟩ : ScorePayload)).2.1
      ["invalid_ai1"] rfl⟩

/-- **C10.** For a GET capture request the raw-encoding flag is taken from
the query string and coerced with Python truthiness of a string: the
registered waiter's `return_base64` equals `bool(query["returnBase64"])`,
which is `true` for every present non-empty value (including the string
`"false"`) and `false` only when the parameter is absent or empty. -/
theorem get_returnBase64_truthiness (clients : List Peer) (s : HubState)
    (query : List (String × String)) (genId : String) (fid : Nat)
    (hcl : clients ≠ []) :
    plookup (reqKeyOfQuery query genId)
        (capture_request_handler_GET clients s query genId fid).2.1.pending
      = some ⟨fid, getQueryReturnBase64 query⟩
    ∧ (∀ v, plookup "returnBase64" query = some v → v ≠ "" →
        getQueryReturnBase64 query = true)
    ∧ (plookup "returnBase64" query = none → getQueryReturnBase64 query = false)
    ∧ (plookup "returnBase64" query = some "" → getQueryReturnBase64 query = false) := by
  refine ⟨?_, ?_, ?_, ?_⟩
  · unfold capture_request_handler_GET capture_request_handler_setup
    rw [if_neg hcl]
    exact plookup_dinsert_self s.pending _ _
  · intro v hv hne
    unfold getQueryReturnBase64
    rw [hv]
    simp [hne]
  · intro h
    unfold getQueryReturnBase64
    rw [h]
  · intro h
    unfold getQueryReturnBase64
    rw [h]
    rfl

/-- Witness for C10: the query string `returnBase64=false` registers the
waiter with `return_base64 = true`. -/
theorem get_returnBase64_truthiness_witness :
    plookup (reqKeyOfQuery [("returnBase64", "false")] "gen")
        (capture_request_handler_GET [⟨0, true⟩]
          (⟨[], fun _ => FutState.cancelled, []⟩ : HubState)
          [("returnBase64", "false")] "gen" 0).2.1.pending
      = some ⟨0, true⟩
    ∧ getQueryReturnBase64 [("returnBase64", "false")] = true :=
  ⟨(get_returnBase64_truthiness [⟨0, true⟩]
      (⟨[], fun _ => FutState.cancelled, []⟩ : HubState)
      [("returnBase64", "false")] "gen" 0 (by decide)).1,
   (get_returnBase64_truthiness [⟨0, true⟩]
      (⟨[], fun _ => FutState.cancelled, []⟩ : HubState)
      [("returnBase64", "false")] "gen" 0 (by decide)).2.1 "false" rfl (by decide)⟩
